import Mathlib

/-!
Shallow embedding of the glacier_server backend (src/index.js and the
unnamed server variant src/unnamed/part_000) together with proofs about
its news-refresh task, blog media pipeline and CORS boundary.

Strings are modelled by Lean String; JavaScript field values that may be
undefined are modelled by Option String.  Case lowering is modelled on the
ASCII range, which is what every string literal involved here uses.
-/

namespace Glacier

/-- Coercion of a possibly-undefined JS value to a string, as performed by
the + operator: undefined stringifies to "undefined". -/
def jsString : Option String → String
  | none => "undefined"
  | some s => s

/-- JS truthiness of a string-or-undefined value: undefined and the empty
string are falsy, every other string is truthy. -/
def jsTruthy : Option String → Bool
  | none => false
  | some s => s != ""

/-- ASCII lowering of one character, as toLowerCase acts on the ASCII
range. -/
def lowerChar (c : Char) : Char := Char.toLower c

/-- ASCII lowering of a whole string (models String.prototype.toLowerCase
on ASCII input). -/
def lowerStr (s : String) : String := String.mk (s.data.map lowerChar)

/-- Substring membership on character lists: does the second list contain
the first as a contiguous run?  Models String.prototype.includes. -/
def isSubListOf : List Char → List Char → Bool
  | needle, [] => needle.isEmpty
  | needle, c :: rest => needle.isPrefixOf (c :: rest) || isSubListOf needle rest

/-- hay.includes(needle) for Lean strings. -/
def jsIncludes (hay needle : String) : Bool := isSubListOf needle.data hay.data

/-- A raw article as parsed from the GNews response body.  Fields the
server reads; each may be absent. -/
structure Article where
  title : Option String
  description : Option String
  url : Option String
  image : Option String
  publishedAt : Option String
  sourceName : Option String
deriving DecidableEq

/-- Article with only title and description set, the fields the relevance
filter reads. -/
def mkArticle (t d : Option String) : Article :=
  { title := t, description := d, url := none, image := none,
    publishedAt := none, sourceName := none }

/-- The text the relevance filter in fetchNews examines, translated with
the operator precedence of the source expression
(article.title || "" + " " + article.description || ""): when the title is
truthy the text is the title alone; otherwise it is a space followed by
the description coerced to a string. -/
def filterText (a : Article) : String :=
  if jsTruthy a.title then jsString a.title
  else " " ++ jsString a.description

/-- The relevance filter of fetchNews in the unnamed server variant: lower
the examined text and keep the article if it contains "glacier", "ice" or
"ice sheet". -/
def keptArticle (a : Article) : Bool :=
  let text := lowerStr (filterText a)
  jsIncludes text "glacier" || jsIncludes text "ice" || jsIncludes text "ice sheet"

/-- The relevance filter as the spec words it: keep the article iff its
title or its description, lowered, contains one of the allow-listed
substrings.  Stated for comparison with keptArticle. -/
def specKeeps (a : Article) : Bool :=
  ["glacier", "ice", "ice sheet"].any (fun k =>
    jsIncludes (lowerStr (a.title.getD "")) k ||
    jsIncludes (lowerStr (a.description.getD "")) k)

example : keptArticle (mkArticle (some "Arctic ice sheet shrinks") none) = true := by decide

example : keptArticle (mkArticle (some "Local election results") none) = false := by decide

/-! ## The news refresh task (unnamed server variant, fetchNews) -/

/-- Outcome of the outbound call to the news source as the try block sees
it: the fetch may reject (network failure), response.json() may reject
(parse failure), or a JSON body is obtained.  A non-2xx response is not
thrown by fetch; it delivers an upstream error body, which carries no
articles field, modelled as ok none. -/
inductive FetchOutcome
  | fetchThrow
  | jsonThrow
  | ok (articles : Option (List Article))
deriving DecidableEq

/-- The value fetchNews resolves with, which the fetch-news route sends to
its caller: the raw parsed body on the non-throwing path, or the object
with the field error set to "Failed to fetch glacier news" from the catch
block. -/
inductive RunResult
  | payload (articles : Option (List Article))
  | errDescriptor
deriving DecidableEq

/-- Is the value returned to the fetch-news caller an error payload: the
catch-block error descriptor, or an upstream body carrying no articles? -/
def isErrorPayload : RunResult → Bool
  | .errDescriptor => true
  | .payload arts => arts.isNone

/-- Mutations fetchNews can issue on the news collection. -/
inductive NewsDbOp
  | deleteAll
  | insertMany (docs : List Article)
deriving DecidableEq

/-- Result of one run of fetchNews in the unnamed server variant: the news
collection after the run, the database operations issued, the resolved
value, and the console lines printed. -/
structure NewsRun where
  news : List Article
  ops : List NewsDbOp
  result : RunResult
  logs : List String
deriving DecidableEq

/-- One run of fetchNews in the unnamed server variant: on a throwing
fetch or parse the catch block logs and resolves with the error
descriptor; otherwise, when the body has a nonempty articles array, the
relevance filter is applied, and only when some article survives is the
collection cleared and the filtered list inserted.  The stored documents
in this variant are the raw filtered articles (the news schema here keeps
the upstream field names, image included). -/
def fetchNews (o : FetchOutcome) (st : List Article) : NewsRun :=
  match o with
  | .fetchThrow =>
      { news := st, ops := [], result := .errDescriptor,
        logs := ["Error fetching glacier news"] }
  | .jsonThrow =>
      { news := st, ops := [], result := .errDescriptor,
        logs := ["Error fetching glacier news"] }
  | .ok arts =>
      match arts with
      | none =>
          { news := st, ops := [], result := .payload none,
            logs := ["Fetched from GNews", "No glacier-related news found this time"] }
      | some l =>
          if 0 < l.length then
            let filtered := l.filter keptArticle
            if 0 < filtered.length then
              { news := filtered, ops := [.deleteAll, .insertMany filtered],
                result := .payload (some l),
                logs := ["Fetched from GNews", "Stored glacier articles"] }
            else
              { news := st, ops := [], result := .payload (some l),
                logs := ["Fetched from GNews", "No glacier-related news after filtering"] }
          else
            { news := st, ops := [], result := .payload (some l),
              logs := ["Fetched from GNews", "No glacier-related news found this time"] }

/-- The fetch-news route: run fetchNews and respond with its resolved
value as JSON. -/
def fetchNewsRoute (o : FetchOutcome) (st : List Article) : RunResult :=
  (fetchNews o st).result

/-- An upstream fetch that failed: network error, parse error, or a
non-2xx response (whose body has no articles field). -/
def fetchFailed : FetchOutcome → Prop
  | .fetchThrow => True
  | .jsonThrow => True
  | .ok arts => arts = none

/-! ## The news refresh task (index.js variant) -/

/-- A stored news document in the index.js variant: its schema renames the
upstream image field to urlToImage. -/
structure NewsDoc where
  title : Option String
  description : Option String
  url : Option String
  urlToImage : Option String
  publishedAt : Option String
  sourceName : Option String
deriving DecidableEq

/-- The mapping index.js applies to each raw article before insertion:
field names are kept except that the upstream image becomes the stored
urlToImage. -/
def formatArticle (a : Article) : NewsDoc :=
  { title := a.title, description := a.description, url := a.url,
    urlToImage := a.image, publishedAt := a.publishedAt,
    sourceName := a.sourceName }

/-- The news collection after one successful-fetch run of fetchNews in
index.js: when the body has a nonempty articles array the collection is
cleared and the mapped articles inserted (this variant applies no
relevance filter); otherwise the collection is untouched. -/
def fetchNewsIdx (arts : Option (List Article)) (st : List NewsDoc) : List NewsDoc :=
  match arts with
  | some l => if 0 < l.length then l.map formatArticle else st
  | none => st

/-! ## Blog media pipeline -/

/-- The stored media kind of a blog. -/
inductive MediaKind
  | image
  | video
deriving DecidableEq

/-- A stored BlogPost record. -/
structure Blog where
  id : String
  title : String
  description : String
  mediaUrl : String
  mediaType : MediaKind
deriving DecidableEq

/-- The attachment as multer with the Cloudinary storage presents it to
the handler: path is the public Cloudinary URL, mimetype the declared
content type of the multipart part. -/
structure UploadedFile where
  path : String
  mimetype : String
deriving DecidableEq

/-- An inbound storeBlog request: at most one attachment under the media
field, plus the optional title and description body fields. -/
structure UploadRequest where
  file : Option UploadedFile
  title : Option String
  description : Option String
deriving DecidableEq

/-- Media kind derivation in the storeBlog handler:
req.file.mimetype.startsWith("video") picks video, anything else image.
startsWith is modelled by list-prefix on the character lists. -/
def mediaTypeOf (mimetype : String) : MediaKind :=
  if "video".data.isPrefixOf mimetype.data then .video else .image

/-- Acceptance of a value for a mongoose String path marked required:
the value must be present, and for strings mongoose also rejects the
empty string. -/
def requiredOk : Option String → Bool
  | none => false
  | some s => s != ""

/-- Result of one storeBlog request: HTTP status, blogs collection after
the request, and how many uploads the multer middleware forwarded to the
object store while parsing the request. -/
structure StoreResult where
  status : Nat
  blogs : List Blog
  storeCalls : Nat
deriving DecidableEq

/-- One storeBlog request.  The multer middleware runs before the handler
and uploads the attachment to the object store whenever one is present,
so storeCalls counts the attachment.  The handler then rejects with 400
when req.file is absent; otherwise it builds a Blog from the body fields,
the Cloudinary URL and the derived media kind, and blog.save() succeeds
exactly when the required title and description validate, the catch block
answering 500 otherwise. -/
def storeBlog (r : UploadRequest) (db : List Blog) (newId : String) : StoreResult :=
  match r.file with
  | none => { status := 400, blogs := db, storeCalls := 0 }
  | some f =>
      if requiredOk r.title && requiredOk r.description then
        { status := 201,
          blogs := db ++ [{ id := newId, title := r.title.getD "",
                            description := r.description.getD "",
                            mediaUrl := f.path,
                            mediaType := mediaTypeOf f.mimetype }],
          storeCalls := 1 }
      else
        { status := 500, blogs := db, storeCalls := 1 }

/-- Splitting a character list at a separator, as String.prototype.split
behaves on one-character separators: the empty string splits to one empty
group, and every occurrence of the separator starts a new group. -/
def splitOnChar (sep : Char) : List Char → List (List Char)
  | [] => [[]]
  | c :: rest =>
      let r := splitOnChar sep rest
      if c = sep then [] :: r
      else
        match r with
        | [] => [[c]]
        | g :: gs => (c :: g) :: gs

/-- The remote identifier the deleteBlog handler re-derives from the
stored media URL: the part of the final slash-separated segment before
its first dot, prefixed with the blogs folder
(mediaUrl.split("/").slice(-1)[0].split(".")[0] under "blogs/"). -/
def derivePublicId (mediaUrl : String) : String :=
  let lastSegment := (splitOnChar (Char.ofNat 47) mediaUrl.data).getLastD []
  "blogs/" ++ String.mk ((splitOnChar (Char.ofNat 46) lastSegment).headD [])

/-- The derivation as the claim words it: the folder prefix plus the final
path segment with its extension stripped, the extension being the final
dot and what follows it (a segment with no dot is kept whole).  Stated for
comparison with derivePublicId. -/
def specDeriveId (mediaUrl : String) : String :=
  let lastSegment := (splitOnChar (Char.ofNat 47) mediaUrl.data).getLastD []
  let groups := splitOnChar (Char.ofNat 46) lastSegment
  let stem := if groups.length ≤ 1 then lastSegment
              else List.intercalate [Char.ofNat 46] groups.dropLast
  "blogs/" ++ String.mk stem

/-- Calls the deleteBlog handler issues against the outside world, in
order: a Cloudinary destroy scoped by the stored media kind, and the
findByIdAndDelete on the blogs collection. -/
inductive DeleteAction
  | destroyRemote (publicId : String) (resourceType : MediaKind)
  | deleteRecord (id : String)
deriving DecidableEq

/-- Blog.findById. -/
def findBlog (db : List Blog) (blogId : String) : Option Blog :=
  db.find? (fun b => b.id == blogId)

/-- Result of one deleteBlog request: HTTP status, blogs collection after
the request, and the outbound calls issued in order. -/
structure DeleteResult where
  status : Nat
  blogs : List Blog
  actions : List DeleteAction
deriving DecidableEq

/-- One deleteBlog request.  remoteDeleteThrows injects the behaviour of
the awaited Cloudinary destroy: when it rejects, control jumps to the
catch block before findByIdAndDelete runs, so the record stays and the
response is 500.  When it resolves, the record is deleted and the
response is the success message. -/
def deleteBlog (db : List Blog) (blogId : String) (remoteDeleteThrows : Bool) : DeleteResult :=
  match findBlog db blogId with
  | none => { status := 404, blogs := db, actions := [] }
  | some b =>
      let pid := derivePublicId b.mediaUrl
      if remoteDeleteThrows then
        { status := 500, blogs := db,
          actions := [.destroyRemote pid b.mediaType] }
      else
        { status := 200, blogs := db.filter (fun x => x.id != blogId),
          actions := [.destroyRemote pid b.mediaType, .deleteRecord blogId] }

/-! ## CORS boundary -/

/-- The allow-list of origins in index.js. -/
def allowedOrigins : List String :=
  ["http://localhost:3000",
   "https://the-voice-of-glacier-vti4.vercel.app",
   "https://glacier-admin-panel.vercel.app"]

/-- The cors origin callback: requests with no Origin header or with an
allow-listed one are admitted; every other origin makes the callback pass
an error, which the middleware turns into a rejection. -/
def corsAllows (origin : Option String) : Bool :=
  match origin with
  | none => true
  | some o => allowedOrigins.contains o

/-- Whether an inbound request reaches its route handler or is stopped at
the CORS boundary. -/
inductive RequestOutcome
  | handlerRan
  | rejectedAtBoundary
deriving DecidableEq

/-- The boundary: the cors middleware runs before every route handler and
forwards the request only when the origin callback admits it. -/
def dispatch (origin : Option String) : RequestOutcome :=
  if corsAllows origin then .handlerRan else .rejectedAtBoundary

/-- A fixed stored blog used to exercise the delete handler. -/
def demoBlog : Blog :=
  { id := "b1", title := "t", description := "d",
    mediaUrl := "https://res.cloudinary.com/demo/image/upload/v1/blogs/abc123.jpg",
    mediaType := .image }

/-! ## Claims -/

/-- C1: the claimed filter property fails on the code.  Operator precedence
in the filter expression makes the examined text the title alone whenever
the title is nonempty, so an article whose title is "Local election
results" and whose description is "Melting glacier floods valley" is
dropped by the code although the claim (formalised by specKeeps) keeps it.
The two examples named by the claim do behave as stated. -/
theorem C1_filter_drops_matching_description :
    keptArticle (mkArticle (some "Local election results")
      (some "Melting glacier floods valley")) = false
  ∧ specKeeps (mkArticle (some "Local election results")
      (some "Melting glacier floods valley")) = true
  ∧ keptArticle (mkArticle (some "Arctic ice sheet shrinks") none) = true
  ∧ keptArticle (mkArticle (some "Local election results")
      (some "City council tallies votes")) = false := by
  decide

/-- C2: when at least one article survives the relevance filter, the run
clears the collection and inserts exactly the surviving articles, so the
collection afterwards equals the map of the filtered set with nothing
from before the run: in the unnamed variant the stored shape keeps the
upstream field names and the map is the identity, and in the index.js
variant (which filters nothing out) every fetched article is stored
through formatArticle, which renames image to urlToImage. -/
theorem C2_refresh_replaces_collection (l : List Article) (stA : List Article)
    (stI : List NewsDoc) (h : l.filter keptArticle ≠ []) :
    (fetchNews (.ok (some l)) stA).news = l.filter keptArticle
  ∧ (fetchNews (.ok (some l)) stA).ops
      = [.deleteAll, .insertMany (l.filter keptArticle)]
  ∧ fetchNewsIdx (some l) stI = l.map formatArticle := by
  have hl : l ≠ [] := by
    intro h0
    subst h0
    simp at h
  have h1 : 0 < l.length := List.length_pos.mpr hl
  have h2 : 0 < (l.filter keptArticle).length := List.length_pos.mpr h
  refine ⟨?_, ?_, ?_⟩ <;> simp [fetchNews, fetchNewsIdx, h1, h2]

/-- Witness for C2 at a one-article fetch that survives the filter. -/
theorem C2_refresh_replaces_collection_witness :
    ([mkArticle (some "Arctic ice sheet shrinks") none].filter keptArticle ≠ [])
  ∧ (fetchNews (.ok (some [mkArticle (some "Arctic ice sheet shrinks") none]))
       [mkArticle (some "stale record") none]).news
      = [mkArticle (some "Arctic ice sheet shrinks") none].filter keptArticle := by
  have h : [mkArticle (some "Arctic ice sheet shrinks") none].filter keptArticle ≠ [] := by
    decide
  exact ⟨h, (C2_refresh_replaces_collection _ _ [] h).1⟩

/-- C3: when the relevance filter leaves nothing (also when the fetched
article list is itself empty), the run issues no delete and no insert and
the collection is exactly what it was before. -/
theorem C3_refresh_no_survivors_no_change (l : List Article) (st : List Article)
    (h : l.filter keptArticle = []) :
    (fetchNews (.ok (some l)) st).news = st
  ∧ (fetchNews (.ok (some l)) st).ops = [] := by
  by_cases h1 : 0 < l.length
  · have h2 : ¬ 0 < (l.filter keptArticle).length := by
      simp [h]
    constructor <;> simp [fetchNews, h1, h2]
  · constructor <;> simp [fetchNews, h1]

/-- Witness for C3 at a fetch whose only article the filter drops. -/
theorem C3_refresh_no_survivors_no_change_witness :
    ([mkArticle (some "Local election results") none].filter keptArticle = [])
  ∧ (fetchNews (.ok (some [mkArticle (some "Local election results") none]))
       [mkArticle (some "stale record") none]).news
      = [mkArticle (some "stale record") none] := by
  have h : [mkArticle (some "Local election results") none].filter keptArticle = [] := by
    decide
  exact ⟨h, (C3_refresh_no_survivors_no_change _ _ h).1⟩

/-- C8: on a failed upstream fetch (network error, parse error, or a
non-2xx response, whose parsed body carries no articles field) the run
touches nothing in the collection, issues no database operation, logs a
line, and the fetch-news route answers its caller with an error payload
instead of crashing. -/
theorem C8_fetch_failure_preserves_state (o : FetchOutcome) (st : List Article)
    (h : fetchFailed o) :
    (fetchNews o st).news = st
  ∧ (fetchNews o st).ops = []
  ∧ (fetchNews o st).logs ≠ []
  ∧ isErrorPayload (fetchNewsRoute o st) = true := by
  cases o with
  | fetchThrow => exact ⟨rfl, rfl, by simp [fetchNews], rfl⟩
  | jsonThrow => exact ⟨rfl, rfl, by simp [fetchNews], rfl⟩
  | ok arts =>
      have h0 : arts = none := h
      subst h0
      exact ⟨rfl, rfl, by simp [fetchNews], rfl⟩

/-- Witness for C8 at a rejecting fetch. -/
theorem C8_fetch_failure_preserves_state_witness :
    (fetchNews .fetchThrow [mkArticle (some "stale record") none]).news
      = [mkArticle (some "stale record") none]
  ∧ isErrorPayload (fetchNewsRoute .fetchThrow [mkArticle (some "stale record") none]) = true := by
  have h := C8_fetch_failure_preserves_state .fetchThrow
    [mkArticle (some "stale record") none] trivial
  exact ⟨h.1, h.2.2.2⟩

/-- C4, counterexample: the handler truncates the final URL segment at its
first dot, which is not extension stripping when the segment holds more
than one dot: for a media URL ending blogs/a.b.jpg the code derives
blogs/a while the claimed extension-stripping derivation gives
blogs/a.b. -/
theorem C4_first_dot_not_extension :
    derivePublicId "https://res.cloudinary.com/demo/image/upload/v1/blogs/a.b.jpg"
      = "blogs/a"
  ∧ specDeriveId "https://res.cloudinary.com/demo/image/upload/v1/blogs/a.b.jpg"
      = "blogs/a.b"
  ∧ ("blogs/a" : String) ≠ "blogs/a.b" := by
  decide

/-- C4, amended: on deleting an existing blog the remote identifier is the
blogs folder prefix plus the final path segment of the stored media URL
truncated at its first dot (which strips the extension whenever the
segment holds at most one dot, as for ...blogs/abc123.jpg, which yields
blogs/abc123), and the database deletion is issued strictly after the
remote delete call. -/
theorem C4_delete_ordering_and_derivation (db : List Blog) (i : String) (b : Blog)
    (h : findBlog db i = some b) :
    (deleteBlog db i false).actions
      = [.destroyRemote (derivePublicId b.mediaUrl) b.mediaType, .deleteRecord i]
  ∧ derivePublicId "https://res.cloudinary.com/demo/image/upload/v1/blogs/abc123.jpg"
      = "blogs/abc123" := by
  constructor
  · simp [deleteBlog, h]
  · decide

/-- Witness for C4 at a one-blog database. -/
theorem C4_delete_ordering_and_derivation_witness :
    (deleteBlog [demoBlog] "b1" false).actions
      = [.destroyRemote (derivePublicId demoBlog.mediaUrl) demoBlog.mediaType,
         .deleteRecord "b1"] :=
  (C4_delete_ordering_and_derivation [demoBlog] "b1" demoBlog (by decide)).1

/-- C5, counterexample: when the awaited remote delete rejects, control
reaches the catch block before findByIdAndDelete, so the database
deletion is never attempted: the record stays and the answer is 500.
The claim that both deletions are attempted regardless of the other
outcome is therefore false. -/
theorem C5_remote_throw_skips_db_delete :
    (deleteBlog [demoBlog] "b1" true).actions
      = [.destroyRemote "blogs/abc123" .image]
  ∧ (deleteBlog [demoBlog] "b1" true).blogs = [demoBlog]
  ∧ (deleteBlog [demoBlog] "b1" true).status = 500 := by
  decide

/-- C5, amended: on deleting an existing blog the remote deletion is
always attempted, and the database deletion is attempted exactly when the
remote delete call returns without throwing. -/
theorem C5_db_delete_iff_remote_resolves (db : List Blog) (i : String) (b : Blog)
    (r : Bool) (h : findBlog db i = some b) :
    DeleteAction.destroyRemote (derivePublicId b.mediaUrl) b.mediaType
      ∈ (deleteBlog db i r).actions
  ∧ (DeleteAction.deleteRecord i ∈ (deleteBlog db i r).actions ↔ r = false) := by
  cases r <;> simp [deleteBlog, h]

/-- Witness for C5 at a one-blog database with a resolving remote
delete. -/
theorem C5_db_delete_iff_remote_resolves_witness :
    DeleteAction.deleteRecord "b1" ∈ (deleteBlog [demoBlog] "b1" false).actions :=
  (C5_db_delete_iff_remote_resolves [demoBlog] "b1" demoBlog false (by decide)).2.mpr rfl

/-- C6: a blog upload carrying no attachment is answered 400, creates no
record, and causes no object-store call (the multer middleware only
uploads when an attachment is present). -/
theorem C6_upload_without_file_rejected (r : UploadRequest) (db : List Blog)
    (nid : String) (h : r.file = none) :
    (storeBlog r db nid).status = 400
  ∧ (storeBlog r db nid).blogs = db
  ∧ (storeBlog r db nid).storeCalls = 0 := by
  simp [storeBlog, h]

/-- Witness for C6 at a request with body fields but no attachment. -/
theorem C6_upload_without_file_rejected_witness :
    (storeBlog { file := none, title := some "t", description := some "d" }
       [] "w6").status = 400 :=
  (C6_upload_without_file_rejected
    { file := none, title := some "t", description := some "d" } [] "w6" rfl).1

/-- C7, counterexample: the handler tests startsWith("video"), not
startsWith("video/"), so a declared content type of "videotext" is stored
as video although it does not start with "video/", against the claimed
iff. -/
theorem C7_video_prefix_without_slash :
    (storeBlog { file := some { path := "p", mimetype := "videotext" },
                 title := some "t", description := some "d" } [] "b7").blogs
      = [{ id := "b7", title := "t", description := "d", mediaUrl := "p",
           mediaType := .video }]
  ∧ "video/".data.isPrefixOf "videotext".data = false := by
  decide

/-- C7, amended: a successful upload stores the blog with media kind video
exactly when the declared content type starts with "video" (no slash
required); in particular image/png is stored as image and video/mp4 as
video. -/
theorem C7_media_kind_from_mimetype (r : UploadRequest) (f : UploadedFile)
    (db : List Blog) (nid : String) (h : r.file = some f)
    (ht : requiredOk r.title = true) (hd : requiredOk r.description = true) :
    (storeBlog r db nid).blogs
      = db ++ [{ id := nid, title := r.title.getD "",
                 description := r.description.getD "",
                 mediaUrl := f.path, mediaType := mediaTypeOf f.mimetype }]
  ∧ (mediaTypeOf f.mimetype = .video ↔ "video".data.isPrefixOf f.mimetype.data = true)
  ∧ mediaTypeOf "image/png" = .image
  ∧ mediaTypeOf "video/mp4" = .video := by
  refine ⟨by simp [storeBlog, h, ht, hd], ?_, by decide, by decide⟩
  cases hp : "video".data.isPrefixOf f.mimetype.data <;> simp [mediaTypeOf, hp]

/-- Witness for C7 at a video upload. -/
theorem C7_media_kind_from_mimetype_witness :
    (storeBlog { file := some { path := "p", mimetype := "video/mp4" },
                 title := some "t", description := some "d" } [] "w7").blogs
      = [{ id := "w7", title := "t", description := "d", mediaUrl := "p",
           mediaType := mediaTypeOf "video/mp4" }] :=
  (C7_media_kind_from_mimetype
    { file := some { path := "p", mimetype := "video/mp4" },
      title := some "t", description := some "d" }
    { path := "p", mimetype := "video/mp4" } [] "w7" rfl rfl rfl).1

/-- C9, counterexample: an upload that carries an attachment but no title
fails inside blog.save(), is answered 500 (a server error, not a client
error), and the middleware has already uploaded the attachment, so a
stored media object exists: the claim of an immediate client error with
no partial state is false for missing text fields. -/
theorem C9_missing_title_is_server_error :
    (storeBlog { file := some { path := "p", mimetype := "image/png" },
                 title := none, description := some "d" } [] "b9").status = 500
  ∧ (storeBlog { file := some { path := "p", mimetype := "image/png" },
                 title := none, description := some "d" } [] "b9").storeCalls = 1
  ∧ (storeBlog { file := some { path := "p", mimetype := "image/png" },
                 title := none, description := some "d" } [] "b9").blogs = [] := by
  decide

/-- C9, amended: a missing attachment is rejected 400 before any state is
created; a missing (or empty) title or description with an attachment
present makes the save fail and is answered 500, with no BlogPost created
but with the attachment already uploaded to the object store. -/
theorem C9_validation_outcomes (r : UploadRequest) (db : List Blog) (nid : String) :
    (r.file = none →
       (storeBlog r db nid).status = 400
     ∧ (storeBlog r db nid).blogs = db
     ∧ (storeBlog r db nid).storeCalls = 0)
  ∧ (∀ f, r.file = some f →
       (requiredOk r.title = false ∨ requiredOk r.description = false) →
       (storeBlog r db nid).status = 500
     ∧ (storeBlog r db nid).blogs = db
     ∧ (storeBlog r db nid).storeCalls = 1) := by
  constructor
  · intro h
    simp [storeBlog, h]
  · intro f h hreq
    rcases hreq with hr | hr <;> simp [storeBlog, h, hr]

/-- Witness for C9 at a titleless upload with an attachment. -/
theorem C9_validation_outcomes_witness :
    (storeBlog { file := some { path := "p", mimetype := "image/png" },
                 title := none, description := some "d" } [] "w9").status = 500 :=
  ((C9_validation_outcomes
      { file := some { path := "p", mimetype := "image/png" },
        title := none, description := some "d" } [] "w9").2
    { path := "p", mimetype := "image/png" } rfl (Or.inl rfl)).1

/-- C10: a request with no Origin header reaches its handler; a request
with an Origin header reaches its handler exactly when the origin is in
the allow-list, and is otherwise stopped at the CORS boundary before any
route handler runs. -/
theorem C10_cors_boundary (o : String) :
    dispatch none = .handlerRan
  ∧ (dispatch (some o) = .handlerRan ↔ o ∈ allowedOrigins)
  ∧ (o ∉ allowedOrigins → dispatch (some o) = .rejectedAtBoundary) := by
  refine ⟨rfl, ?_, ?_⟩ <;> by_cases hm : o ∈ allowedOrigins <;>
    simp [dispatch, corsAllows, hm]

/-- Witness for C10 at a disallowed origin. -/
theorem C10_cors_boundary_witness :
    dispatch (some "https://evil.example") = .rejectedAtBoundary :=
  (C10_cors_boundary "https://evil.example").2.2 (by decide)

end Glacier
